import Mathlib

/-!
# ClinicalProof (MedHash) — verification of the fingerprint pipeline

Shallow embedding of the MedHash backend handlers:

* `create-hash/app.py` — canonicalization, SHA-256 / HMAC-SHA256 digests,
  the simulated blockchain receipt, and the create handler;
* `verify-hash/app.py` — digest normalization, lookup, counter update,
  and the verify handler;
* `generate-summary/app.py` — bounded retry with fallback placeholders;
* the boundary exception handlers of `fetch-pubmed`, `generated-summary`
  and `verify-hash`.

Machine words are modelled as `Nat` reduced modulo `2 ^ 32`; byte strings as
`List Nat` of values below 256 (UTF-8 encoded as Python's `str.encode` does);
the DynamoDB verifications table as an association list keyed by digest.
Nondeterministic inputs of the Python code (wall-clock time, random addresses,
store availability) are threaded explicitly as environment records.
-/

set_option maxRecDepth 1000000

namespace MedHash

/-! ## SHA-256 over `Nat` (from `hashlib.sha256`) -/

def w32 : Nat := 2 ^ 32

def add32 (x y : Nat) : Nat := (x + y) % w32

def not32 (x : Nat) : Nat := x ^^^ (w32 - 1)

def rotr32 (n x : Nat) : Nat := (x >>> n) ||| ((x &&& (2 ^ n - 1)) <<< (32 - n))

def ch (x y z : Nat) : Nat := (x &&& y) ^^^ (not32 x &&& z)

def maj (x y z : Nat) : Nat := (x &&& y) ^^^ (x &&& z) ^^^ (y &&& z)

def bsig0 (x : Nat) : Nat := rotr32 2 x ^^^ rotr32 13 x ^^^ rotr32 22 x

def bsig1 (x : Nat) : Nat := rotr32 6 x ^^^ rotr32 11 x ^^^ rotr32 25 x

def ssig0 (x : Nat) : Nat := rotr32 7 x ^^^ rotr32 18 x ^^^ (x >>> 3)

def ssig1 (x : Nat) : Nat := rotr32 17 x ^^^ rotr32 19 x ^^^ (x >>> 10)

def shaK : List Nat :=
  [1116352408, 1899447441, 3049323471, 3921009573, 961987163, 1508970993,
   2453635748, 2870763221, 3624381080, 310598401, 607225278, 1426881987,
   1925078388, 2162078206, 2614888103, 3248222580, 3835390401, 4022224774,
   264347078, 604807628, 770255983, 1249150122, 1555081692, 1996064986,
   2554220882, 2821834349, 2952996808, 3210313671, 3336571891, 3584528711,
   113926993, 338241895, 666307205, 773529912, 1294757372, 1396182291,
   1695183700, 1986661051, 2177026350, 2456956037, 2730485921, 2820302411,
   3259730800, 3345764771, 3516065817, 3600352804, 4094571909, 275423344,
   430227734, 506948616, 659060556, 883997877, 958139571, 1322822218,
   1537002063, 1747873779, 1955562222, 2024104815, 2227730452, 2361852424,
   2428436474, 2756734187, 3204031479, 3329325298]

structure Hash8 where
  a : Nat
  b : Nat
  c : Nat
  d : Nat
  e : Nat
  f : Nat
  g : Nat
  h : Nat
deriving Repr, DecidableEq

def initH : Hash8 :=
  ⟨1779033703, 3144134277, 1013904242, 2773480762, 1359893119, 2600822924, 528734635, 1541459225⟩

def shaRound (st : Hash8) (kw : Nat × Nat) : Hash8 :=
  let t1 := (st.h + bsig1 st.e + ch st.e st.f st.g + kw.1 + kw.2) % w32
  let t2 := (bsig0 st.a + maj st.a st.b st.c) % w32
  ⟨(t1 + t2) % w32, st.a, st.b, st.c, (st.d + t1) % w32, st.e, st.f, st.g⟩

def blockWords (block : List Nat) : List Nat :=
  (List.range 16).map fun i =>
    ((block.getD (4 * i) 0) <<< 24) + ((block.getD (4 * i + 1) 0) <<< 16) +
      ((block.getD (4 * i + 2) 0) <<< 8) + block.getD (4 * i + 3) 0

def nextScheduleWord (ws : List Nat) : Nat :=
  let t := ws.length
  add32 (add32 (ssig1 (ws.getD (t - 2) 0)) (ws.getD (t - 7) 0))
    (add32 (ssig0 (ws.getD (t - 15) 0)) (ws.getD (t - 16) 0))

def extendSchedule : Nat → List Nat → List Nat
  | 0, ws => ws
  | n + 1, ws => extendSchedule n (ws ++ [nextScheduleWord ws])

def processBlock (st : Hash8) (block : List Nat) : Hash8 :=
  let ws := extendSchedule 48 (blockWords block)
  let r := (shaK.zip ws).foldl shaRound st
  ⟨add32 st.a r.a, add32 st.b r.b, add32 st.c r.c, add32 st.d r.d,
   add32 st.e r.e, add32 st.f r.f, add32 st.g r.g, add32 st.h r.h⟩

def padMessage (msg : List Nat) : List Nat :=
  let bitLen := 8 * msg.length
  let zeros := (119 - msg.length % 64) % 64
  msg ++ [0x80] ++ List.replicate zeros 0 ++
    (List.range 8).map fun i => (bitLen >>> (56 - 8 * i)) % 256

def toBlocksFuel : Nat → List Nat → List (List Nat)
  | 0, _ => []
  | fuel + 1, l => if l = [] then [] else l.take 64 :: toBlocksFuel fuel (l.drop 64)

def toBlocks (l : List Nat) : List (List Nat) := toBlocksFuel l.length l

def sha256Words (msg : List Nat) : Hash8 :=
  (toBlocks (padMessage msg)).foldl processBlock initH

/-- UTF-8 encoding of one character, as Python's `str.encode('utf-8')`. -/
def utf8Encode (c : Char) : List Nat :=
  let v := c.toNat
  if v < 0x80 then [v]
  else if v < 0x800 then [0xc0 ||| (v >>> 6), 0x80 ||| (v &&& 0x3f)]
  else if v < 0x10000 then
    [0xe0 ||| (v >>> 12), 0x80 ||| ((v >>> 6) &&& 0x3f), 0x80 ||| (v &&& 0x3f)]
  else
    [0xf0 ||| (v >>> 18), 0x80 ||| ((v >>> 12) &&& 0x3f),
     0x80 ||| ((v >>> 6) &&& 0x3f), 0x80 ||| (v &&& 0x3f)]

def strBytes (s : String) : List Nat := s.data.flatMap utf8Encode

/-! ## Hex rendering (`.hexdigest()`) -/

def hexDigits : List Char := "0123456789abcdef".data

def hexChar (n : Nat) : Char := hexDigits.getD (n % 16) '0'

def wordHex (x : Nat) : List Char := (List.range 8).map fun i => hexChar (x >>> (28 - 4 * i))

def hash8Hex (st : Hash8) : List Char :=
  wordHex st.a ++ wordHex st.b ++ wordHex st.c ++ wordHex st.d ++
    wordHex st.e ++ wordHex st.f ++ wordHex st.g ++ wordHex st.h

def sha256Hex (s : String) : String := String.mk (hash8Hex (sha256Words (strBytes s)))

def wordBytes (x : Nat) : List Nat := [(x >>> 24) % 256, (x >>> 16) % 256, (x >>> 8) % 256, x % 256]

def hash8Bytes (st : Hash8) : List Nat :=
  wordBytes st.a ++ wordBytes st.b ++ wordBytes st.c ++ wordBytes st.d ++
    wordBytes st.e ++ wordBytes st.f ++ wordBytes st.g ++ wordBytes st.h

/-- HMAC-SHA256 (`hmac.new(key, data, hashlib.sha256)`), block size 64 bytes. -/
def hmacWords (key msg : List Nat) : Hash8 :=
  let k0 := if 64 < key.length then hash8Bytes (sha256Words key) else key
  let kp := k0 ++ List.replicate (64 - k0.length) 0
  sha256Words ((kp.map fun b => b ^^^ 0x5c) ++
    hash8Bytes (sha256Words ((kp.map fun b => b ^^^ 0x36) ++ msg)))

def hmacSha256Hex (data key : String) : String :=
  String.mk (hash8Hex (hmacWords (strBytes key) (strBytes data)))

/-! ## Python string primitives

`str.strip()`, `'|'.join(...)` and slicing are modelled on the character
list of the string.  The whitespace set is the ASCII core of Python's;
exotic Unicode whitespace is outside the model. -/

def pyWhitespace (c : Char) : Bool :=
  c == ' ' || c == '\t' || c == '\n' || c == '\r' || c == '\x0b' || c == '\x0c'

/-- Python `s.strip()`. -/
def pyStrip (s : String) : String :=
  String.mk (((s.data.dropWhile pyWhitespace).reverse.dropWhile pyWhitespace).reverse)

/-- Python `sep.join(parts)`. -/
def pyJoin (sep : String) (parts : List String) : String :=
  String.mk (List.intercalate sep.data (parts.map String.data))

/-- Python `s[:n]`. -/
def pyTake (s : String) (n : Nat) : String := String.mk (s.data.take n)

/-! ## `create-hash/app.py`: `HashGenerator.generate_hash` -/

/-- `HashGenerator.generate_hash`: canonical string
`'|'.join([pmid, title, doi, pubdate, summary_text.strip()])`, then
HMAC-SHA256 when `secret_key` is truthy (present and non-empty),
SHA-256 otherwise. -/
def generate_hash (pmid title doi pubdate summaryText : String)
    (secretKey : Option String) : String :=
  let combined := pyJoin "|" [pmid, title, doi, pubdate, pyStrip summaryText]
  if (secretKey.getD "") = "" then sha256Hex combined
  else hmacSha256Hex combined (secretKey.getD "")

/-! ## `BlockchainSimulator.create_transaction` -/

structure BlockchainTx where
  network : String
  transactionHash : String
  blockNumber : Nat
  timestamp : String
  fromAddr : String
  toAddr : String
  gasUsed : String
  status : String
  note : String
deriving Repr, DecidableEq

/-- Per-invocation data the Python code draws from its environment:
`int(time.time())`, `datetime.utcnow().isoformat()` and the two fresh
`secrets.token_hex(20)` draws for the from/to addresses. -/
structure TxEnv where
  epoch : Nat
  nowIso : String
  rand1 : String
  rand2 : String
deriving Repr, DecidableEq

def create_transaction (hashValue : String) (env : TxEnv) : BlockchainTx :=
  { network := "Ethereum Sepolia Testnet"
    transactionHash := "0x" ++ pyTake hashValue 64
    blockNumber := env.epoch % 1000000
    timestamp := env.nowIso
    fromAddr := "0x" ++ env.rand1
    toAddr := "0x" ++ env.rand2
    gasUsed := "21000"
    status := "success"
    note := "SIMULATED FOR HACKATHON - Not a real blockchain transaction" }

/-! ## The verifications table -/

structure VerificationRecord where
  pmid : String
  summaryId : String
  paperTitle : String
  createdAt : String
  timestamp : Nat
  verificationCount : Nat
  lastVerified : Option String
  hasSecret : Bool
  storeOnChain : Bool
  blockchain : Option BlockchainTx
deriving Repr, DecidableEq

abbrev Store := List (String × VerificationRecord)

/-- `get_item` by primary key. -/
def storeGet : Store → String → Option VerificationRecord
  | [], _ => none
  | (k', v) :: rest, k => if k' = k then some v else storeGet rest k

/-- `put_item`: unconditional upsert of the full item. -/
def storePut : Store → String → VerificationRecord → Store
  | [], k, v => [(k, v)]
  | (k', v') :: rest, k, v =>
      if k' = k then (k, v) :: rest else (k', v') :: storePut rest k v

/-- Python truthiness test `if not x` for an optional string field. -/
def strFalsy : Option String → Bool
  | none => true
  | some s => s = ""

/-! ## `create-hash/app.py`: `lambda_handler` -/

structure CreateRequest where
  pmid : Option String
  summaryId : Option String
  title : Option String
  summary : Option String
  doi : Option String
  pubdate : Option String
  secretKey : Option String
  storeOnChain : Option Bool
deriving Repr

/-- The `missing_fields` list built by the handler: `pmid`, `summaryId` and
`summary` are appended, in this order, whenever the corresponding body value
is falsy (`body.get('summary', '')` makes an absent summary the empty
string). -/
def missingFields (r : CreateRequest) : List String :=
  (if strFalsy r.pmid then ["pmid"] else []) ++
    (if strFalsy r.summaryId then ["summaryId"] else []) ++
      (if r.summary.getD "" = "" then ["summary"] else [])

inductive CreateResult
  | missing (fields : List String)
  | ok (hash : String) (pmid summaryId createdAt verificationUrl : String)
      (blockchain : Option BlockchainTx)
deriving Repr, DecidableEq

def createStatusCode : CreateResult → Nat
  | .missing _ => 400
  | .ok .. => 200

structure CreateEnv where
  tx : TxEnv
  putOk : Bool
deriving Repr

/-- `create-hash` `lambda_handler` after JSON parsing: validation, digest,
optional simulated transaction, unconditional `put_item` upsert (failures
absorbed), response.  The duplicate-existence `get_item` only logs and is
not observable. -/
def createHandler (r : CreateRequest) (store : Store) (env : CreateEnv) :
    CreateResult × Store :=
  let m := missingFields r
  if m ≠ [] then (.missing m, store)
  else
    let pmid := r.pmid.getD ""
    let summaryId := r.summaryId.getD ""
    let title := r.title.getD ""
    let soc := r.storeOnChain.getD true
    let hashValue :=
      generate_hash pmid title (r.doi.getD "") (r.pubdate.getD "")
        (r.summary.getD "") r.secretKey
    let bc := if soc then some (create_transaction hashValue env.tx) else none
    let record : VerificationRecord :=
      { pmid := pmid, summaryId := summaryId, paperTitle := title,
        createdAt := env.tx.nowIso, timestamp := env.tx.epoch,
        verificationCount := 0, lastVerified := none,
        hasSecret := r.secretKey.isSome, storeOnChain := soc,
        blockchain := bc }
    let store' := if env.putOk then storePut store hashValue record else store
    (.ok hashValue pmid summaryId env.tx.nowIso ("/verify/" ++ hashValue) bc, store')

/-! ## `verify-hash/app.py`: `lambda_handler` -/

inductive VerifyResult
  | missingHash
  | dbError
  | notFound (hash : String)
  | ok (hash : String) (record : VerificationRecord) (verificationCount : Nat)
      (lastVerified : String) (epochTimestamp : Nat)
deriving Repr, DecidableEq

def verifyStatusCode : VerifyResult → Nat
  | .missingHash => 400
  | .dbError => 503
  | .notFound _ => 404
  | .ok .. => 200

def verifiedFlag : VerifyResult → Bool
  | .ok .. => true
  | _ => false

def responseCount : VerifyResult → Option Nat
  | .ok _ _ n _ _ => some n
  | _ => none

structure VerifyEnv where
  nowIso : String
  epoch : Nat
  getOk : Bool
  updateOk : Bool
deriving Repr

/-- `hash_value.strip()` then removal of a leading `0x`. -/
def normalizeHash (s : String) : String :=
  let t := pyStrip s
  match t.data with
  | '0' :: 'x' :: rest => String.mk rest
  | _ => t

/-- `verify-hash` `lambda_handler`: path hash with query fallback, falsy
check, normalization, `get_item` (failure is a 503), not-found is a 404,
otherwise `new_count = current + 1` is computed from the read record and
written with `SET verification_count = :count, last_verified = :time`
(failures absorbed); the response always carries `new_count`. -/
def verifyHandler (pathHash queryHash : Option String) (store : Store)
    (env : VerifyEnv) : VerifyResult × Store :=
  let hv := if strFalsy pathHash then queryHash.getD "" else pathHash.getD ""
  if hv = "" then (.missingHash, store)
  else
    let h := normalizeHash hv
    if ¬env.getOk then (.dbError, store)
    else
      match storeGet store h with
      | none => (.notFound h, store)
      | some record =>
          let newCount := record.verificationCount + 1
          let store' :=
            if env.updateOk then
              storePut store h
                { record with verificationCount := newCount,
                              lastVerified := some env.nowIso }
            else store
          (.ok h record newCount env.nowIso env.epoch, store')

/-- `n` sequential completed verify calls on the same digest. -/
def iterVerify (h : String) (env : VerifyEnv) : Nat → Store → Store
  | 0, st => st
  | n + 1, st => iterVerify h env n (verifyHandler (some h) none st env).2

/-! ## Concurrency model for the counter update

The handler reads `verification_count`, computes `new_count = current + 1`
in Python, and writes it back with a `SET` expression.  On the counter of a
single digest this is a two-step read/write.  Two concurrent verify calls A
and B are an interleaving of their four steps with each call's read before
its write. -/

inductive VEv
  | readA
  | readB
  | writeA
  | writeB
deriving Repr, DecidableEq, BEq

structure RmwState where
  count : Nat
  regA : Option Nat
  regB : Option Nat
deriving Repr, DecidableEq

/-- One step of the handler's read-modify-write protocol: a read stores the
current count in the call's local `current_count`; a write performs
`SET verification_count = current_count + 1`. -/
def rmwStep (s : RmwState) : VEv → RmwState
  | .readA => { s with regA := some s.count }
  | .readB => { s with regB := some s.count }
  | .writeA => { s with count := s.regA.getD s.count + 1 }
  | .writeB => { s with count := s.regB.getD s.count + 1 }

def rmwRun (sched : List VEv) (k : Nat) : RmwState :=
  sched.foldl rmwStep ⟨k, none, none⟩

/-- `sched` is a complete interleaving of calls A and B: four steps, every
step occurs (hence each exactly once), and each call reads before it
writes. -/
def isInterleaving (sched : List VEv) : Bool :=
  sched.length == 4 && sched.contains .readA && sched.contains .readB &&
    sched.contains .writeA && sched.contains .writeB &&
      decide (sched.indexOf .readA < sched.indexOf .writeA) &&
        decide (sched.indexOf .readB < sched.indexOf .writeB)

/-- `DynamoDBClient.increment_counter` uses `ADD verification_count :inc`,
a single atomic step per call, so `n` completed calls are `n` unit
increments in some order. -/
def atomicAddRun : Nat → Nat → Nat
  | 0, k => k
  | n + 1, k => atomicAddRun n (k + 1)

/-! ## `generate-summary/app.py`: `BedrockSummarizer` and handler

The Bedrock backend is abstracted as an oracle mapping the attempt index to
`self._generate`'s outcome: `some text` when the call returns, `none` when
it raises.  `max_retries = 3`, `retry_delay = 1`. -/

abbrev GenOracle := Nat → Option String

def retryAux (oracle : GenOracle) : Nat → Nat → Option String
  | _, 0 => none
  | attempt, fuel + 1 =>
      match oracle attempt with
      | some r => some r
      | none => retryAux oracle (attempt + 1) fuel

/-- `generate_with_retry`: up to 3 attempts, `None` after the last
failure. -/
def generate_with_retry (oracle : GenOracle) : Option String :=
  retryAux oracle 0 3

/-- The sleeps performed by `generate_with_retry`: after a failed attempt
`i` with `i < max_retries - 1` it sleeps `retry_delay * (i + 1)` seconds. -/
def retrySleeps (oracle : GenOracle) : List Nat :=
  match oracle 0 with
  | some _ => []
  | none =>
      1 :: match oracle 1 with
      | some _ => []
      | none =>
          2 :: match oracle 2 with
          | some _ => []
          | none => []

def shortPlaceholder : String := "Unable to generate short summary."

def mediumPlaceholder : String := "Unable to generate medium summary."

def longPlaceholder : String := "Unable to generate detailed summary."

/-- Python's `x or y` on an optional string: `y` when `x` is `None` or the
empty string (both falsy), `x`'s value otherwise.  `result or "Unable to
generate ..."` therefore substitutes the placeholder also when a
generation attempt returns the empty string (reachable, since `_generate`
returns `content[0].get('text', '')`). -/
def pyOrElse (x : Option String) (y : String) : String :=
  match x with
  | none => y
  | some t => if t = "" then y else t

def generate_short_summary (oracle : GenOracle) : String :=
  pyOrElse (generate_with_retry oracle) shortPlaceholder

def generate_medium_summary (oracle : GenOracle) : String :=
  pyOrElse (generate_with_retry oracle) mediumPlaceholder

def generate_long_summary (oracle : GenOracle) : String :=
  pyOrElse (generate_with_retry oracle) longPlaceholder

structure SummaryOracles where
  short : GenOracle
  medium : GenOracle
  long : GenOracle

inductive SummaryResult
  | badRequest
  | cached (summaryId : String) (short medium long : String)
  | paperNotFound
  | dbError
  | generated (summaryId : String) (short medium long : Option String)
deriving Repr, DecidableEq

def summaryStatusCode : SummaryResult → Nat
  | .badRequest => 400
  | .cached .. => 200
  | .paperNotFound => 404
  | .dbError => 500
  | .generated .. => 200

/-- Data the handler draws from its environment: the time-derived summary
id (`sha256(f"{pmid}:{time.time()}:{title}")[:16]`) and whether the store
calls succeed. -/
structure SummaryEnv where
  newSummaryId : String
  getOk : Bool

/-- `generate-summary` `lambda_handler` after JSON parsing: falsy `pmid` is
a 400; unless `regenerate`, an existing most-recent summary record is
returned as cached; a missing paper is a 404 (a failing `get_item` a 500);
otherwise each requested level is generated through `generate_with_retry`,
failed levels becoming their placeholder strings, and the handler always
answers 200 with the generated map (storage failures absorbed). -/
def generateSummaryHandler (pmid : Option String) (summaryType : String)
    (regenerate : Bool) (existing : Option (String × String × String × String))
    (paperAbstract : Option String) (oracles : SummaryOracles)
    (env : SummaryEnv) : SummaryResult :=
  if strFalsy pmid then .badRequest
  else
    match (if regenerate then none else existing) with
    | some (sid, s, m, l) => .cached sid s m l
    | none =>
        if ¬env.getOk then .dbError
        else
          match paperAbstract with
          | none => .paperNotFound
          | some _ =>
              let short :=
                if summaryType = "short" ∨ summaryType = "all" then
                  some (generate_short_summary oracles.short)
                else none
              let medium :=
                if summaryType = "medium" ∨ summaryType = "all" then
                  some (generate_medium_summary oracles.medium)
                else none
              let long :=
                if summaryType = "long" ∨ summaryType = "all" then
                  some (generate_long_summary oracles.long)
                else none
              .generated env.newSummaryId short medium long

/-! ## Boundary `except Exception` branches (claim C10)

Each model maps the raw exception text `str(e)` to the status code and JSON
body the handler returns from its outermost `except` clause. -/

structure ErrorBody where
  error : String
  message : String
deriving Repr, DecidableEq

structure SimpleErrorBody where
  error : String
deriving Repr, DecidableEq

structure VerifyErrorBody where
  verified : Bool
  error : String
  message : String
deriving Repr, DecidableEq

/-- `fetch-pubmed/app.py` outer catch: `'message': str(e)`. -/
def fetchPubmedCatch (e : String) : Nat × ErrorBody :=
  (500, ⟨"Internal server error", e⟩)

/-- `generated-summary/app.py` outer catch: `{'error': str(e)}`. -/
def generatedSummaryCatch (e : String) : Nat × SimpleErrorBody :=
  (500, ⟨e⟩)

/-- `verify-hash/app.py` outer catch: fixed body. -/
def verifyHashCatch (_e : String) : Nat × VerifyErrorBody :=
  (500, ⟨false, "Internal server error", "An unexpected error occurred during verification"⟩)

/-- `create-hash/app.py` outer catch: fixed body. -/
def createHashCatch (_e : String) : Nat × ErrorBody :=
  (500, ⟨"Internal server error", "An unexpected error occurred while creating hash"⟩)

/-- `generate-summary/app.py` outer catch: fixed body. -/
def generateSummaryCatch (_e : String) : Nat × ErrorBody :=
  (500, ⟨"Internal server error", "An unexpected error occurred"⟩)

/-! ## Projections and spec-side definitions -/

def resHash : CreateResult → Option String
  | .ok h .. => some h
  | .missing _ => none

/-- Stored verification counter of a key, 0 when absent. -/
def countOf (st : Store) (k : String) : Nat :=
  ((storeGet st k).map (fun r => r.verificationCount)).getD 0

/-- Modelled from the spec (§4.3), for comparison with the code: build the
ordered list `[identifier, title, doi, pubdate, trimmed(summary text)]`,
empty string for any absent optional field, and join with `|`. -/
def specCanonical (identifier title doi pubdate summaryText : String) : String :=
  pyJoin "|" [identifier, title, doi, pubdate, pyStrip summaryText]

/-! ## Concrete fixtures used by witnesses and counterexamples -/

def exTxEnv : TxEnv := ⟨1234, "2024-01-01T00:00:00", "aa", "bb"⟩

def exTxEnv2 : TxEnv := ⟨1234, "2024-01-01T00:00:00", "cc", "dd"⟩

def exCreateEnv : CreateEnv := ⟨exTxEnv, true⟩

def exCreateReq : CreateRequest :=
  ⟨some "12345678", some "sum1", some "T", some "S", none, none, none, some false⟩

def exDigest : String := generate_hash "12345678" "T" "" "" "S" none

def exRecord (count : Nat) : VerificationRecord :=
  { pmid := "12345678", summaryId := "sum1", paperTitle := "T",
    createdAt := "2024-01-01T00:00:00", timestamp := 1234,
    verificationCount := count, lastVerified := none,
    hasSecret := false, storeOnChain := false, blockchain := none }

def exVerifyEnv (updateOk : Bool) : VerifyEnv :=
  ⟨"2024-01-02T00:00:00", 2345, true, updateOk⟩

def exEmptyReq : CreateRequest := ⟨none, none, none, none, none, none, none, none⟩

def exWsReq : CreateRequest := { exCreateReq with summary := some " " }

/-! ## Helper lemmas -/

theorem wordHex_length (x : Nat) : (wordHex x).length = 8 := by
  simp [wordHex]

theorem hash8Hex_length (st : Hash8) : (hash8Hex st).length = 64 := by
  simp [hash8Hex, wordHex]

theorem hexChar_mem (n : Nat) : hexChar n ∈ hexDigits := by
  have h : n % 16 < 16 := Nat.mod_lt _ (by norm_num)
  unfold hexChar
  generalize hm : n % 16 = m
  rw [hm] at h
  interval_cases m <;> decide

theorem mem_wordHex {c : Char} {x : Nat} (hc : c ∈ wordHex x) : c ∈ hexDigits := by
  simp only [wordHex, List.mem_map] at hc
  obtain ⟨i, _, rfl⟩ := hc
  exact hexChar_mem _

theorem mem_hash8Hex {c : Char} {st : Hash8} (hc : c ∈ hash8Hex st) : c ∈ hexDigits := by
  simp only [hash8Hex, List.mem_append] at hc
  rcases hc with ((((((h | h) | h) | h) | h) | h) | h) | h <;> exact mem_wordHex h

theorem sha256Hex_length (s : String) : (sha256Hex s).length = 64 :=
  hash8Hex_length _

theorem sha256Hex_mem {c : Char} {s : String} (hc : c ∈ (sha256Hex s).data) :
    c ∈ hexDigits :=
  mem_hash8Hex hc

theorem hmacSha256Hex_length (d k : String) : (hmacSha256Hex d k).length = 64 :=
  hash8Hex_length _

theorem hmacSha256Hex_mem {c : Char} {d k : String}
    (hc : c ∈ (hmacSha256Hex d k).data) : c ∈ hexDigits :=
  mem_hash8Hex hc

theorem generate_hash_length (p t d pd s : String) (key : Option String) :
    (generate_hash p t d pd s key).length = 64 := by
  by_cases h : key.getD "" = "" <;>
    simp [generate_hash, h, sha256Hex_length, hmacSha256Hex_length]

theorem generate_hash_mem {c : Char} {p t d pd s : String} {key : Option String}
    (hc : c ∈ (generate_hash p t d pd s key).data) : c ∈ hexDigits := by
  by_cases h : key.getD "" = "" <;> simp only [generate_hash, h, if_true, if_false,
    ite_true, ite_false] at hc
  · exact sha256Hex_mem hc
  · exact hmacSha256Hex_mem hc

theorem storeGet_put_self (st : Store) (k : String) (v : VerificationRecord) :
    storeGet (storePut st k v) k = some v := by
  induction st with
  | nil => simp [storePut, storeGet]
  | cons p rest ih =>
      obtain ⟨k', v'⟩ := p
      by_cases h : k' = k
      · subst h; simp [storePut, storeGet]
      · simp [storePut, storeGet, h, ih]

theorem storeGet_put_ne (st : Store) (k k' : String) (v : VerificationRecord)
    (h : k' ≠ k) : storeGet (storePut st k v) k' = storeGet st k' := by
  induction st with
  | nil => simp [storePut, storeGet, Ne.symm h]
  | cons p rest ih =>
      obtain ⟨k'', v''⟩ := p
      by_cases hk : k'' = k
      · subst hk
        simp [storePut, storeGet, Ne.symm h]
      · simp [storePut, storeGet, hk, ih]

/-! ## Claim C1 -/

/-- C1: for every fingerprint-creation request that passes validation, the
returned digest is SHA-256 of the spec's canonical string when no secret
key is supplied and HMAC-SHA256 of it under the key when a non-empty key is
supplied; the digest is a fixed 64-character string over the lowercase
hexadecimal alphabet; and it depends only on the request fields, so the
same inputs reproduce the same digest whatever the store state or
environment. -/
theorem create_digest_spec (r : CreateRequest) (store : Store) (env : CreateEnv)
    (hval : missingFields r = []) :
    (r.secretKey = none →
      resHash (createHandler r store env).1 =
        some (sha256Hex (specCanonical (r.pmid.getD "") (r.title.getD "")
          (r.doi.getD "") (r.pubdate.getD "") (r.summary.getD "")))) ∧
    (∀ k, r.secretKey = some k → k ≠ "" →
      resHash (createHandler r store env).1 =
        some (hmacSha256Hex (specCanonical (r.pmid.getD "") (r.title.getD "")
          (r.doi.getD "") (r.pubdate.getD "") (r.summary.getD "")) k)) ∧
    (∀ d, resHash (createHandler r store env).1 = some d →
      d.length = 64 ∧ ∀ c ∈ d.data, c ∈ hexDigits) ∧
    (∀ (store₂ : Store) (env₂ : CreateEnv),
      resHash (createHandler r store₂ env₂).1 =
        resHash (createHandler r store env).1) := by
  have key : ∀ (st : Store) (e : CreateEnv), resHash (createHandler r st e).1 =
      some (generate_hash (r.pmid.getD "") (r.title.getD "") (r.doi.getD "")
        (r.pubdate.getD "") (r.summary.getD "") r.secretKey) := by
    intro st e
    simp [createHandler, hval, resHash]
  refine ⟨?_, ?_, ?_, ?_⟩
  · intro hk
    rw [key]
    simp [generate_hash, specCanonical, hk]
  · intro k hk hne
    rw [key]
    simp [generate_hash, specCanonical, hk, hne]
  · intro d hd
    rw [key] at hd
    have hd' : generate_hash (r.pmid.getD "") (r.title.getD "") (r.doi.getD "")
        (r.pubdate.getD "") (r.summary.getD "") r.secretKey = d := by
      simpa using hd
    subst hd'
    exact ⟨generate_hash_length _ _ _ _ _ _, fun c hc => generate_hash_mem hc⟩
  · intro st2 e2
    rw [key, key]

/-- Witness for C1 at the spec's own end-to-end scenario: identifier
`12345678`, title `T`, summary `S`, no key; the digest evaluates to the
SHA-256 of `12345678|T|||S`. -/
theorem create_digest_spec_witness :
    missingFields exCreateReq = [] ∧
      resHash (createHandler exCreateReq [] exCreateEnv).1 =
        some (sha256Hex (specCanonical "12345678" "T" "" "" "S")) ∧
      sha256Hex (specCanonical "12345678" "T" "" "" "S") =
        "438347d73b937fc6d029a9abf4cc1ad5026ac75c1586bac43b2342e38686a987" :=
  ⟨by decide, (create_digest_spec exCreateReq [] exCreateEnv (by decide)).1 rfl,
    by decide⟩

/-! ## Claim C2 -/

/-- C2: the verify handler does NOT use an atomic add.  It computes
`new_count = current_count + 1` from a previously read value and writes it
back with `SET`.  In the interleaving where both concurrent calls read
count 5 before either writes, both write 6 and one increment is lost,
whereas the atomic `ADD`-based `increment_counter` of the shared layer
would yield 7 for two completed calls. -/
theorem verify_rmw_lost_update :
    isInterleaving [VEv.readA, VEv.readB, VEv.writeA, VEv.writeB] = true ∧
      (rmwRun [VEv.readA, VEv.readB, VEv.writeA, VEv.writeB] 5).count = 6 ∧
      atomicAddRun 2 5 = 7 ∧ (6 : Nat) ≠ 7 := by decide

/-! ## Verify-handler helper lemmas -/

theorem verifyHandler_found (h : String) (r : VerificationRecord) (store : Store)
    (env : VerifyEnv) (hne : h ≠ "") (hnorm : normalizeHash h = h)
    (hget : env.getOk = true) (hr : storeGet store h = some r) :
    verifyHandler (some h) none store env =
      (VerifyResult.ok h r (r.verificationCount + 1) env.nowIso env.epoch,
        if env.updateOk then
          storePut store h
            { r with verificationCount := r.verificationCount + 1,
                     lastVerified := some env.nowIso }
        else store) := by
  simp [verifyHandler, strFalsy, hne, hnorm, hget, hr]

theorem iterVerify_count (h : String) (env : VerifyEnv) (hne : h ≠ "")
    (hnorm : normalizeHash h = h) (hget : env.getOk = true)
    (hupd : env.updateOk = true) :
    ∀ (n : Nat) (store : Store) (r : VerificationRecord),
      storeGet store h = some r →
      ∃ r', storeGet (iterVerify h env n store) h = some r' ∧
        r'.verificationCount = r.verificationCount + n := by
  intro n
  induction n with
  | zero => exact fun store r hr => ⟨r, by simpa [iterVerify] using hr, rfl⟩
  | succ n ih =>
      intro store r hr
      have hstep := verifyHandler_found h r store env hne hnorm hget hr
      have h2 : storeGet (verifyHandler (some h) none store env).2 h =
          some { r with verificationCount := r.verificationCount + 1,
                        lastVerified := some env.nowIso } := by
        rw [hstep]
        simp [hupd, storeGet_put_self]
      obtain ⟨r', hr', hc⟩ := ih _ _ h2
      refine ⟨r', ?_, ?_⟩
      · rw [iterVerify]
        exact hr'
      · rw [hc]
        simp
        omega

theorem createHandler_stores_zero (r : CreateRequest) (store : Store)
    (env : CreateEnv) (hval : missingFields r = []) (hput : env.putOk = true)
    (d : String) (hres : resHash (createHandler r store env).1 = some d) :
    ∃ rec, storeGet (createHandler r store env).2 d = some rec ∧
      rec.verificationCount = 0 := by
  simp only [createHandler, hval, resHash, hput, ne_eq, not_true_eq_false,
    if_false, ite_false, ite_true, if_true] at hres ⊢
  simp only [Option.some.injEq] at hres
  rw [← hres]
  exact ⟨_, storeGet_put_self _ _ _, rfl⟩

/-! ## Claim C3 -/

/-- C3: a single completed verify call on a registered digest with stored
counter `k` answers 200/verified with `verification_count = k + 1` and
persists `k + 1` together with the fresh last-verified timestamp; `n`
sequential calls leave the counter at `k + n`; and a verify performed
immediately after a successful fingerprint creation (which stores the
counter at 0) answers verified with count 1. -/
theorem verify_increments_counter (h : String) (r : VerificationRecord)
    (store : Store) (env : VerifyEnv) (hne : h ≠ "")
    (hnorm : normalizeHash h = h) (hget : env.getOk = true)
    (hupd : env.updateOk = true) (hr : storeGet store h = some r) :
    (verifyHandler (some h) none store env).1 =
        VerifyResult.ok h r (r.verificationCount + 1) env.nowIso env.epoch ∧
      verifyStatusCode (verifyHandler (some h) none store env).1 = 200 ∧
      verifiedFlag (verifyHandler (some h) none store env).1 = true ∧
      storeGet (verifyHandler (some h) none store env).2 h =
        some { r with verificationCount := r.verificationCount + 1,
                      lastVerified := some env.nowIso } ∧
      (∀ n, ∃ r', storeGet (iterVerify h env n store) h = some r' ∧
        r'.verificationCount = r.verificationCount + n) ∧
      (∀ (r₂ : CreateRequest) (store₂ : Store) (cenv : CreateEnv) (d : String),
        missingFields r₂ = [] → cenv.putOk = true →
        resHash (createHandler r₂ store₂ cenv).1 = some d →
        normalizeHash d = d → d ≠ "" →
        responseCount
            (verifyHandler (some d) none (createHandler r₂ store₂ cenv).2 env).1 =
          some 1 ∧
        verifiedFlag
            (verifyHandler (some d) none (createHandler r₂ store₂ cenv).2 env).1 =
          true) := by
  have hstep := verifyHandler_found h r store env hne hnorm hget hr
  refine ⟨?_, ?_, ?_, ?_, ?_, ?_⟩
  · rw [hstep]
  · rw [hstep]
    rfl
  · rw [hstep]
    rfl
  · rw [hstep]
    simp [hupd, storeGet_put_self]
  · exact fun n => iterVerify_count h env hne hnorm hget hupd n store r hr
  · intro r₂ store₂ cenv d hm hput hres hnd hdne
    obtain ⟨rec, hrec, hc⟩ := createHandler_stores_zero r₂ store₂ cenv hm hput d hres
    have hstep₂ := verifyHandler_found d rec _ env hdne hnd hget hrec
    rw [hstep₂]
    simp [responseCount, verifiedFlag, hc]

/-- Witness for C3: verifying the digest `deadbeef`, registered with
counter 3, answers count 4. -/
theorem verify_increments_counter_witness :
    normalizeHash "deadbeef" = "deadbeef" ∧
      (verifyHandler (some "deadbeef") none [("deadbeef", exRecord 3)]
            (exVerifyEnv true)).1 =
        VerifyResult.ok "deadbeef" (exRecord 3) 4 "2024-01-02T00:00:00" 2345 :=
  ⟨by decide,
    (verify_increments_counter "deadbeef" (exRecord 3)
      [("deadbeef", exRecord 3)] (exVerifyEnv true) (by decide) (by decide)
      (by decide) (by decide) (by decide)).1⟩

/-! ## Claim C5 -/

/-- C5 counterexample: the record for `deadbeef` holds counter 5 and the
store update fails; the response still reports success but carries 6 (the
incremented value), not the previously known value 5 that the claim
asserts, while the store keeps 5. -/
theorem verify_update_failure_count_counterexample :
    responseCount
        (verifyHandler (some "deadbeef") none [("deadbeef", exRecord 5)]
            (exVerifyEnv false)).1 = some 6 ∧
      some (6 : Nat) ≠ some 5 ∧
      (verifyHandler (some "deadbeef") none [("deadbeef", exRecord 5)]
          (exVerifyEnv false)).2 = [("deadbeef", exRecord 5)] := by
  decide

/-- C5 amended: when the verifier finds the record but persisting the
increment fails, the call is still reported successful (status 200,
verified) and the response carries the incremented value `k + 1` computed
from the value last read before the failed update, while the store keeps
the old record. -/
theorem verify_update_failure_nonfatal (h : String) (r : VerificationRecord)
    (store : Store) (env : VerifyEnv) (hne : h ≠ "")
    (hnorm : normalizeHash h = h) (hget : env.getOk = true)
    (hupd : env.updateOk = false) (hr : storeGet store h = some r) :
    (verifyHandler (some h) none store env).1 =
        VerifyResult.ok h r (r.verificationCount + 1) env.nowIso env.epoch ∧
      verifyStatusCode (verifyHandler (some h) none store env).1 = 200 ∧
      verifiedFlag (verifyHandler (some h) none store env).1 = true ∧
      responseCount (verifyHandler (some h) none store env).1 =
        some (r.verificationCount + 1) ∧
      (verifyHandler (some h) none store env).2 = store := by
  have hstep := verifyHandler_found h r store env hne hnorm hget hr
  rw [hstep]
  simp [hupd, responseCount, verifyStatusCode, verifiedFlag]

/-- Witness for the amended C5 at a concrete store and failing update. -/
theorem verify_update_failure_nonfatal_witness :
    normalizeHash "deadbeef" = "deadbeef" ∧
      (verifyHandler (some "deadbeef") none [("deadbeef", exRecord 5)]
          (exVerifyEnv false)).2 = [("deadbeef", exRecord 5)] :=
  ⟨by decide,
    (verify_update_failure_nonfatal "deadbeef" (exRecord 5)
      [("deadbeef", exRecord 5)] (exVerifyEnv false) (by decide) (by decide)
      (by decide) (by decide) (by decide)).2.2.2.2⟩

/-! ## Claim C6 -/

/-- C6: a verify call for a digest with no registered record — whether the
digest arrives in the path or in the query string — answers 404 with
`verified = false`, is a total function of the embedding (it never
raises), and leaves the store untouched: no counter is created or
incremented. -/
theorem verify_not_found (hv : String) (store : Store) (env : VerifyEnv)
    (hne : hv ≠ "") (hget : env.getOk = true)
    (habs : storeGet store (normalizeHash hv) = none) :
    verifyHandler (some hv) none store env =
        (VerifyResult.notFound (normalizeHash hv), store) ∧
      verifyHandler none (some hv) store env =
        (VerifyResult.notFound (normalizeHash hv), store) ∧
      verifyStatusCode (verifyHandler (some hv) none store env).1 = 404 ∧
      verifiedFlag (verifyHandler (some hv) none store env).1 = false := by
  have hp : verifyHandler (some hv) none store env =
      (VerifyResult.notFound (normalizeHash hv), store) := by
    simp [verifyHandler, strFalsy, hne, hget, habs]
  have hq : verifyHandler none (some hv) store env =
      (VerifyResult.notFound (normalizeHash hv), store) := by
    simp [verifyHandler, strFalsy, hne, hget, habs]
  exact ⟨hp, hq, by simp [hp, verifyStatusCode], by simp [hp, verifiedFlag]⟩

/-- Witness for C6 on the empty store. -/
theorem verify_not_found_witness :
    storeGet [] (normalizeHash "beef") = none ∧
      verifyHandler (some "beef") none [] (exVerifyEnv true) =
        (VerifyResult.notFound (normalizeHash "beef"), []) :=
  ⟨by decide,
    (verify_not_found "beef" [] (exVerifyEnv true) (by decide) (by decide)
      (by decide)).1⟩

/-! ## Claim C4 -/

theorem verifyHandler_store_cases (ph qh : Option String) (store : Store)
    (env : VerifyEnv) :
    (verifyHandler ph qh store env).2 = store ∨
      ∃ h r, storeGet store h = some r ∧
        (verifyHandler ph qh store env).2 =
          storePut store h
            { r with verificationCount := r.verificationCount + 1,
                     lastVerified := some env.nowIso } := by
  simp only [verifyHandler]
  generalize (if strFalsy ph = true then qh.getD "" else ph.getD "") = hv
  split
  · exact Or.inl rfl
  · split
    · exact Or.inl rfl
    · split
      · exact Or.inl rfl
      · next r hsg =>
          split
          · exact Or.inr ⟨_, r, hsg, rfl⟩
          · exact Or.inl rfl

/-- C4 counterexample: a record for the digest of the canonical input of
`exCreateReq` is registered with counter 5; re-running the creation for
the same canonical input succeeds, returns the same digest, and its
unconditional `put_item` overwrites the record, resetting the counter to
0 instead of leaving it intact. -/
theorem duplicate_create_resets_counter :
    (storeGet [(exDigest, exRecord 5)] exDigest).map
        (fun r => r.verificationCount) = some 5 ∧
      resHash (createHandler exCreateReq [(exDigest, exRecord 5)] exCreateEnv).1 =
        some exDigest ∧
      (storeGet (createHandler exCreateReq [(exDigest, exRecord 5)] exCreateEnv).2
          exDigest).map (fun r => r.verificationCount) = some 0 := by
  decide

/-- C4 amended: the verification counter (a natural number, hence
non-negative) never decreases under any verify operation — the verifier
only increments the counter of the record it finds and leaves every other
record untouched — but a repeated fingerprint-creation for the same
canonical input overwrites the existing record via the upsert and resets
its counter to 0. -/
theorem counter_monotone_under_verify :
    (∀ (ph qh : Option String) (store : Store) (env : VerifyEnv) (k : String),
      countOf store k ≤ countOf (verifyHandler ph qh store env).2 k) ∧
    (∀ (r : CreateRequest) (store : Store) (env : CreateEnv) (d : String),
      missingFields r = [] → env.putOk = true →
      resHash (createHandler r store env).1 = some d →
      countOf (createHandler r store env).2 d = 0) := by
  constructor
  · intro ph qh store env k
    rcases verifyHandler_store_cases ph qh store env with hcase | ⟨h, r, hr, hcase⟩
    · rw [hcase]
    · rw [hcase]
      by_cases hk : k = h
      · subst hk
        simp [countOf, hr, storeGet_put_self]
      · rw [countOf, countOf, storeGet_put_ne _ _ _ _ hk]
  · intro r store env d hval hput hres
    obtain ⟨rec, hrec, hc⟩ := createHandler_stores_zero r store env hval hput d hres
    simp [countOf, hrec, hc]

/-- Witness for the amended C4: re-creating over a counter-5 record resets
to 0, and a concrete verify does not decrease the counter. -/
theorem counter_monotone_under_verify_witness :
    missingFields exCreateReq = [] ∧
      countOf (createHandler exCreateReq [(exDigest, exRecord 5)] exCreateEnv).2
          exDigest = 0 ∧
      countOf [("deadbeef", exRecord 5)] "deadbeef" ≤
        countOf (verifyHandler (some "deadbeef") none
            [("deadbeef", exRecord 5)] (exVerifyEnv true)).2 "deadbeef" :=
  ⟨by decide,
    counter_monotone_under_verify.2 exCreateReq [(exDigest, exRecord 5)]
      exCreateEnv exDigest (by decide) (by decide) (by decide),
    counter_monotone_under_verify.1 (some "deadbeef") none
      [("deadbeef", exRecord 5)] (exVerifyEnv true) "deadbeef"⟩

/-! ## Claim C7 -/

/-- C7 counterexample: a request whose summary is the single space `" "`
is empty after trimming, so the claim requires a 400 listing `summary`;
the handler's check `if not summary_text` sees a truthy untrimmed string,
reports nothing missing, and answers 200. -/
theorem whitespace_summary_passes_validation :
    pyStrip " " = "" ∧
      missingFields exWsReq = [] ∧
      createStatusCode (createHandler exWsReq [] exCreateEnv).1 = 200 := by
  decide

/-- C7 amended: the generator fails with a single 400 response listing
together every absent required field among `pmid`, `summaryId` and
`summary` — where `summary` counts as required non-empty BEFORE trimming
(a whitespace-only summary passes validation) — and in that failure case
it returns immediately with the store unchanged. -/
theorem create_validation_reports_all_missing :
    (∀ r : CreateRequest,
      ("pmid" ∈ missingFields r ↔ strFalsy r.pmid = true) ∧
      ("summaryId" ∈ missingFields r ↔ strFalsy r.summaryId = true) ∧
      ("summary" ∈ missingFields r ↔ r.summary.getD "" = "")) ∧
    (∀ (r : CreateRequest) (store : Store) (env : CreateEnv),
      missingFields r ≠ [] →
      createHandler r store env = (.missing (missingFields r), store) ∧
      createStatusCode (createHandler r store env).1 = 400) := by
  constructor
  · intro r
    refine ⟨?_, ?_, ?_⟩ <;>
      · by_cases h1 : strFalsy r.pmid = true <;>
          by_cases h2 : strFalsy r.summaryId = true <;>
            by_cases h3 : r.summary.getD "" = "" <;>
              simp [missingFields, h1, h2, h3]
  · intro r store env hm
    refine ⟨?_, ?_⟩
    · simp [createHandler, hm]
    · simp [createHandler, hm, createStatusCode]

/-- Witness for the amended C7: a request missing all three required
fields is rejected with all of them listed together. -/
theorem create_validation_reports_all_missing_witness :
    missingFields exEmptyReq = ["pmid", "summaryId", "summary"] ∧
      createHandler exEmptyReq [] exCreateEnv =
        (.missing ["pmid", "summaryId", "summary"], []) := by
  have h := (create_validation_reports_all_missing.2 exEmptyReq [] exCreateEnv
    (by decide)).1
  have hm : missingFields exEmptyReq = ["pmid", "summaryId", "summary"] := by decide
  rw [hm] at h
  exact ⟨hm, h⟩

/-! ## Claim C8 -/

/-- C8 counterexample: two invocations of the receipt simulator on the
same digest draw different `secrets.token_hex` from/to addresses, so the
synthesized Receipts differ — the simulation is not deterministic in the
digest. -/
theorem receipt_not_deterministic :
    create_transaction "ff" exTxEnv ≠ create_transaction "ff" exTxEnv2 := by
  decide

/-- C8 amended: receipt synthesis is a pure function of the digest and the
drawn environment with no store side effect; the transaction id is derived
deterministically from the digest alone (`"0x"` plus its first 64
characters) and every Receipt carries the fixed simulated-transaction
disclaimer, but the from/to addresses are fresh random draws and block
number and timestamp are time-derived, so two invocations on the same
digest need not produce the same Receipt. -/
theorem receipt_txid_deterministic_and_disclaimed (h : String) (e1 e2 : TxEnv) :
    (create_transaction h e1).transactionHash =
        (create_transaction h e2).transactionHash ∧
      (create_transaction h e1).transactionHash = "0x" ++ pyTake h 64 ∧
      (create_transaction h e1).note =
        "SIMULATED FOR HACKATHON - Not a real blockchain transaction" ∧
      (create_transaction h e1).network = "Ethereum Sepolia Testnet" ∧
      (create_transaction h e1).gasUsed = "21000" ∧
      (create_transaction h e1).status = "success" :=
  ⟨rfl, rfl, rfl, rfl, rfl, rfl⟩

/-! ## Claim C9 -/

/-- C9 counterexample: with every generation attempt of every level
failing, the handler still answers 200 with all three levels set to their
fallback placeholders — the operation does not fail when ALL requested
levels fail. -/
theorem all_levels_fail_still_success :
    summaryStatusCode
        (generateSummaryHandler (some "12345678") "all" true none (some "A")
          ⟨fun _ => none, fun _ => none, fun _ => none⟩ ⟨"sid", true⟩) = 200 ∧
      generateSummaryHandler (some "12345678") "all" true none (some "A")
          ⟨fun _ => none, fun _ => none, fun _ => none⟩ ⟨"sid", true⟩ =
        .generated "sid" (some shortPlaceholder) (some mediumPlaceholder)
          (some longPlaceholder) :=
  ⟨rfl, rfl⟩

/-- C9 amended: an individual level that fails all 3 attempts (sleeping 1s
then 2s, the linearly increasing backoff) yields its fallback placeholder
string; the `result or placeholder` fallback also substitutes the
placeholder when the surviving generation result is the empty string
(Python falsy); a level whose attempt succeeds with non-empty text returns
that text, with at most 2 sleeps before it; levels are independent, so
failed levels become placeholders while succeeded levels are returned
normally — but when ALL requested levels fail the handler still answers
200 with placeholders rather than failing. -/
theorem summary_retry_fallback :
    (∀ o : GenOracle, o 0 = none → o 1 = none → o 2 = none →
      generate_with_retry o = none ∧
      generate_short_summary o = shortPlaceholder ∧
      generate_medium_summary o = mediumPlaceholder ∧
      generate_long_summary o = longPlaceholder ∧
      retrySleeps o = [1, 2]) ∧
    (∀ o : GenOracle, o 0 = some "" →
      generate_with_retry o = some "" ∧
      generate_short_summary o = shortPlaceholder ∧
      generate_medium_summary o = mediumPlaceholder ∧
      generate_long_summary o = longPlaceholder) ∧
    (∀ (o : GenOracle) (t : String), o 0 = some t →
      generate_with_retry o = some t ∧ retrySleeps o = []) ∧
    (∀ (o : GenOracle) (t : String), o 0 = none → o 1 = some t →
      generate_with_retry o = some t ∧ retrySleeps o = [1]) ∧
    (∀ (o : GenOracle) (t : String), o 0 = none → o 1 = none → o 2 = some t →
      generate_with_retry o = some t ∧ retrySleeps o = [1, 2]) ∧
    (∀ (oShort om ol : GenOracle) (tm tl pmid sid abstr : String),
      oShort 0 = none → oShort 1 = none → oShort 2 = none →
      om 0 = some tm → tm ≠ "" → ol 0 = some tl → tl ≠ "" → pmid ≠ "" →
      generateSummaryHandler (some pmid) "all" true none (some abstr)
          ⟨oShort, om, ol⟩ ⟨sid, true⟩ =
        .generated sid (some shortPlaceholder) (some tm) (some tl) ∧
      summaryStatusCode
          (generateSummaryHandler (some pmid) "all" true none (some abstr)
            ⟨oShort, om, ol⟩ ⟨sid, true⟩) = 200) := by
  refine ⟨?_, ?_, ?_, ?_, ?_, ?_⟩
  · intro o h0 h1 h2
    simp [generate_with_retry, retryAux, retrySleeps, h0, h1, h2, pyOrElse,
      generate_short_summary, generate_medium_summary, generate_long_summary]
  · intro o h0
    simp [generate_with_retry, retryAux, h0, pyOrElse,
      generate_short_summary, generate_medium_summary, generate_long_summary]
  · intro o t h0
    simp [generate_with_retry, retryAux, retrySleeps, h0]
  · intro o t h0 h1
    simp [generate_with_retry, retryAux, retrySleeps, h0, h1]
  · intro o t h0 h1 h2
    simp [generate_with_retry, retryAux, retrySleeps, h0, h1, h2]
  · intro oShort om ol tm tl pmid sid abstr h0 h1 h2 hm htm hl htl hpm
    constructor
    · simp [generateSummaryHandler, strFalsy, hpm, generate_short_summary,
        generate_medium_summary, generate_long_summary, generate_with_retry,
        retryAux, h0, h1, h2, hm, htm, hl, htl, pyOrElse]
    · simp [generateSummaryHandler, strFalsy, hpm, summaryStatusCode]

/-- Witness for the amended C9: short level always fails, medium and long
succeed at once with non-empty text; mixed outcome with placeholder only
for the failed level, and an empty-string generation also yields the
placeholder. -/
theorem summary_retry_fallback_witness :
    generate_short_summary (fun _ => none) = shortPlaceholder ∧
      generate_short_summary (fun _ => some "") = shortPlaceholder ∧
      generateSummaryHandler (some "12345678") "all" true none (some "A")
          ⟨fun _ => none, fun _ => some "M", fun _ => some "L"⟩ ⟨"sid", true⟩ =
        .generated "sid" (some shortPlaceholder) (some "M") (some "L") :=
  ⟨(summary_retry_fallback.1 (fun _ => none) rfl rfl rfl).2.1,
    (summary_retry_fallback.2.1 (fun _ => some "") rfl).2.1,
    (summary_retry_fallback.2.2.2.2.2 (fun _ => none) (fun _ => some "M")
      (fun _ => some "L") "M" "L" "12345678" "sid" "A" rfl rfl rfl rfl
      (by decide) rfl (by decide) (by decide)).1⟩

/-! ## Claim C10 -/

/-- C10 counterexample: the `fetch-pubmed` boundary catch puts `str(e)` in
the `message` field and the `generated-summary` boundary catch puts it in
`error`, so two runs failing with different internal exceptions return
different 500 bodies — the claim's non-leaking property fails for these
handlers. -/
theorem fetch_pubmed_catch_echoes :
    fetchPubmedCatch "a" ≠ fetchPubmedCatch "b" ∧
      (fetchPubmedCatch "a").2.message = "a" ∧
      generatedSummaryCatch "a" ≠ generatedSummaryCatch "b" := by
  decide

/-- C10 amended: every boundary catch returns status 500; `verify-hash`,
`create-hash` and `generate-summary` return a fixed body independent of
the exception (two runs with different internal exceptions return
identical bodies, nothing is echoed), while `fetch-pubmed` echoes the raw
exception text in its `message` field and `generated-summary` echoes it in
its `error` field. -/
theorem boundary_catch_bodies (e1 e2 : String) :
    verifyHashCatch e1 = verifyHashCatch e2 ∧ (verifyHashCatch e1).1 = 500 ∧
      createHashCatch e1 = createHashCatch e2 ∧ (createHashCatch e1).1 = 500 ∧
      generateSummaryCatch e1 = generateSummaryCatch e2 ∧
      (generateSummaryCatch e1).1 = 500 ∧
      (fetchPubmedCatch e1).1 = 500 ∧ (fetchPubmedCatch e1).2.message = e1 ∧
      (generatedSummaryCatch e1).1 = 500 ∧
      (generatedSummaryCatch e1).2.error = e1 :=
  ⟨rfl, rfl, rfl, rfl, rfl, rfl, rfl, rfl, rfl, rfl⟩

end MedHash
